import Mathlib

/-!
Verification development for the AI-triage GitHub Action.

The TypeScript sources are shallowly embedded in Lean:
* pure functions (`calculateScore`, `detectTests`, `detectHighRiskModules`,
  `calculateCosineSimilarity`) become Lean functions over `Int`/`Rat`/`Real`
  and `List`;
* fallible code (`throw` in TypeScript) returns `Except String _`;
* every external call (OpenAI chat/embedding endpoints, GitHub API, the
  optional vector store) is abstracted by an oracle value recording the
  outcome of that call, so that the orchestration logic of
  `detectDuplicates` can be analysed as a pure function of those outcomes.
-/

namespace Triage

/-! ## JavaScript primitives -/

/-- JavaScript truthy-or on an optional string: `v || d`.
Both a missing field and the empty string are falsy. -/
def jsOrS (v : Option String) (d : String) : String :=
  match v with
  | none => d
  | some s => if s = "" then d else s

/-- JavaScript truthy-or on an optional number: `v || d`.
Both a missing field and the number 0 are falsy. -/
def jsOrQ (v : Option ℚ) (d : ℚ) : ℚ :=
  match v with
  | none => d
  | some x => if x = 0 then d else x

/-- JavaScript `v || null` on an optional integer field: a missing field
and the (falsy) number 0 both become `null`. -/
def jsOrNullInt (v : Option ℤ) : Option ℤ :=
  match v with
  | none => none
  | some n => if n = 0 then none else some n

/-- JavaScript `Math.round`: nearest integer, ties toward `+∞`. -/
def jsRound (q : ℚ) : ℤ := ⌊q + 1 / 2⌋

/-- Occurrence of `pat` as a contiguous substring of a character list;
this is what an unanchored regex of escaped literals tests. -/
def containsSub (pat : List Char) : List Char → Bool
  | [] => pat.isEmpty
  | c :: rest => pat.isPrefixOf (c :: rest) || containsSub pat rest

/-! ## Scoring (src/src/index.ts, scoring part, lines 199-313) -/

/-- `ScoringFactors` (index.ts lines 199-206).  The optional boolean fields
(`ciPassing?`, `testsAdded?`, `highRiskModules?`, `hasTests?`) are modelled
as `Bool`: the source only tests them for truthiness, under which an absent
field behaves exactly like `false`. -/
structure ScoringFactors where
  ciPassing : Bool
  testsAdded : Bool
  diffSize : ℤ
  descriptionLength : ℤ
  highRiskModules : Bool
  hasTests : Bool

/-- Modelled from the spec: `PRReviewResult` lives in `src/review.ts`, which
is not among the provided sources; the spec describes it as "summary text,
risk level (low|medium|high), list of missing elements, design-alignment
tag, readiness score in [0,100]".  `calculateScore` reads only
`readiness_score`. -/
structure PRReviewResult where
  summary : String
  risk_level : String
  missing_elements : List String
  design_alignment : String
  readiness_score : ℚ

/-- The score accumulated by `calculateScore` (index.ts lines 208-257)
before the final clamp on line 260: base 50, plus/minus each conditional
contribution in source order, plus the LLM adjustment
`Math.round((readiness_score - 50) * 0.3)` when a review result is given. -/
def calculateScoreRaw (factors : ScoringFactors) (reviewResult : Option PRReviewResult) : ℤ :=
  50
  + (if factors.ciPassing then 20 else 0)
  + (if factors.testsAdded then 15 else 0)
  + (if factors.diffSize < 300 then 10 else 0)
  + (if factors.descriptionLength > 300 then 10 else 0)
  - (if factors.highRiskModules then 15 else 0)
  - (if !factors.hasTests then 20 else 0)
  - (if factors.diffSize > 1000 then 10 else 0)
  + (match reviewResult with
     | some reviewResult => jsRound ((reviewResult.readiness_score - 50) * (3 / 10))
     | none => 0)

/-- `calculateScore` (index.ts lines 208-264): the accumulated score
clamped to [0,100] by `Math.max(0, Math.min(100, score))`. -/
def calculateScore (factors : ScoringFactors) (reviewResult : Option PRReviewResult) : ℤ :=
  max 0 (min 100 (calculateScoreRaw factors reviewResult))

/-- The test-path patterns of `detectTests` (index.ts lines 294-301).  All
six regexes are literal substring patterns (the dots are escaped). -/
def testPatterns : List String :=
  [".test.", ".spec.", "__tests__/", "test/", "tests/", "spec/"]

/-- `detectTests` (index.ts lines 293-313): true iff some file path
contains one of the six literal test patterns as a substring. -/
def detectTests (files : List String) : Bool :=
  files.any fun file => testPatterns.any fun pattern => containsSub pattern.data file.data

/-- The high-risk keyword list of `detectHighRiskModules`
(index.ts lines 267-279); each regex is a case-insensitive literal. -/
def highRiskPatterns : List String :=
  ["auth", "security", "payment", "billing", "database", "migration",
   "schema", "config", "env", "deployment", "infra"]

/-- `detectHighRiskModules` (index.ts lines 266-291): true iff some file
path matches one of the high-risk keywords case-insensitively; the `/i`
flag is modelled by lower-casing the path before the substring test. -/
def detectHighRiskModules (files : List String) : Bool :=
  files.any fun file =>
    highRiskPatterns.any fun pattern => containsSub pattern.data (file.data.map Char.toLower)

/-! ## Summarizer (src/src/summarizer.ts)

The two OpenAI calls are abstracted by oracle values: an
`Except String _` recording whether the call (plus, for the chat call,
the subsequent `JSON.parse`) succeeded and with what payload. -/

/-- `ItemSummary` (summarizer.ts lines 5-10). -/
structure ItemSummary where
  problem_statement : String
  scope : String
  key_entities : List String
  affected_files : List String
deriving DecidableEq

/-- The object produced by `JSON.parse` on a summary completion: every
field may be absent (or, for the array fields, fail `Array.isArray`,
which the model folds into `none`). -/
structure RawSummary where
  problem_statement : Option String
  scope : Option String
  key_entities : Option (List String)
  affected_files : Option (List String)

/-- `generateSummary` (summarizer.ts lines 12-57).  `outcome` is the
combined result of the chat call and `JSON.parse`.  On success each field
is defaulted as on lines 41-46; on any failure the catch block on lines
47-56 returns the basic summary built from the raw `title` and `files`.
The `body` argument only feeds the prompt, hence is unused here. -/
def generateSummary (title : String) (body : String) (files : Option (List String))
    (outcome : Except String RawSummary) : ItemSummary :=
  match outcome with
  | .ok summary =>
      { problem_statement := jsOrS summary.problem_statement "No problem statement"
        scope := jsOrS summary.scope "Unknown"
        key_entities := summary.key_entities.getD []
        affected_files := summary.affected_files.getD [] }
  | .error _ =>
      let _ := body
      { problem_statement := title
        scope := "Unknown"
        key_entities := []
        affected_files := files.getD [] }

/-- `generateEmbedding` (summarizer.ts lines 59-74): returns the
endpoint's vector on success; on failure it logs and re-raises the same
error (`throw error` on line 72). -/
def generateEmbedding (outcome : Except String (List ℝ)) : Except String (List ℝ) :=
  match outcome with
  | .ok response => .ok response
  | .error e => .error e

/-- `calculateCosineSimilarity` (summarizer.ts lines 76-99): throws when
the lengths differ (line 78); otherwise computes the dot product and the
two magnitudes, returns 0 if either magnitude is 0 (line 94), and
otherwise the normalised dot product.  Numbers are modelled by `ℝ`. -/
noncomputable def calculateCosineSimilarity (a b : List ℝ) : Except String ℝ :=
  if a.length ≠ b.length then .error "Vectors must have the same length"
  else
    let dotProduct := (List.zipWith (fun x y => x * y) a b).sum
    let normA := Real.sqrt ((a.map fun x => x * x).sum)
    let normB := Real.sqrt ((b.map fun x => x * x).sum)
    if normA = 0 ∨ normB = 0 then .ok 0
    else .ok (dotProduct / (normA * normB))

/-! ## Duplicate detection (src/unnamed/part_004, dedupe.ts) -/

/-- `DuplicateResult` (dedupe.ts lines 8-13).  The classification is kept
as a raw string because the source assigns the parsed JSON field without
checking it against the union type. -/
structure DuplicateResult where
  classification : String
  confidence : ℚ
  canonical_item : Option ℤ
  reasoning : String
deriving DecidableEq

/-- The object produced by `JSON.parse` on a duplicate-classification
completion; every field may be absent. -/
structure RawDuplicate where
  classification : Option String
  confidence : Option ℚ
  canonical_item : Option ℤ
  reasoning : Option String

/-- `classifyDuplicate` (dedupe.ts lines 137-189).  `outcome` is the
combined result of the chat call and `JSON.parse`.  On success the fields
are defaulted truthily as on lines 174-179; on any failure the catch
block on lines 180-188 returns `distinct` with confidence 0.  The title
and summary arguments of the source only feed the prompt, hence are
absorbed into the oracle. -/
def classifyDuplicate (outcome : Except String RawDuplicate) : DuplicateResult :=
  match outcome with
  | .ok result =>
      { classification := jsOrS result.classification "distinct"
        confidence := jsOrQ result.confidence 0
        canonical_item := jsOrNullInt result.canonical_item
        reasoning := jsOrS result.reasoning "No reasoning provided" }
  | .error _ =>
      { classification := "distinct"
        confidence := 0
        canonical_item := none
        reasoning := "Classification failed" }

/-- An issue or pull request fetched from the GitHub API
(`getRecentIssues` / `getRecentPullRequests`): number, title, nullable
body. -/
structure FetchedItem where
  number : ℤ
  title : String
  body : Option String

/-- `SimilarityItem` (db.ts lines 288-297, the second document of
src/unnamed/part_003): a persisted store row; `similarity?` is populated
only by `findSimilarItems`, hence optional. -/
structure SimilarityItem where
  repo : String
  github_id : String
  type : String
  title : String
  summary : String
  embedding : List ℝ
  closed : Bool
  similarity : Option ℝ

/-- `storeSimilarityItem` (db.ts lines 349-375): upserts the item with one
SQL query, whose outcome is the oracle argument.  The entire body sits in
a try/catch whose catch only logs a warning, so the function returns void
in every case and never throws. -/
def storeSimilarityItem (queryOutcome : Except String Unit) : Unit :=
  match queryOutcome with
  | .ok _ => ()
  | .error _ => ()

/-- `findSimilarItems` (db.ts lines 377-420): one SQL nearest-neighbour
query whose returned rows (already shaped into `SimilarityItem`s, the
row-to-record mapping of lines 406-415 being plain data shaping of the
external reply) are the oracle argument.  The catch on lines 416-419 logs
a warning and returns the empty list, so the function never throws. -/
def findSimilarItems (queryOutcome : Except String (List SimilarityItem)) :
    List SimilarityItem :=
  match queryOutcome with
  | .ok rows => rows
  | .error _ => []

/-- A ranked duplicate candidate (the anonymous record type built in
`detectDuplicates`). -/
structure Candidate where
  number : ℤ
  title : String
  summary : String
  similarity : ℝ

/-- Oracle for one run of `detectDuplicates`: the outcome of every
external call the function can make — the summary chat call and embedding
call for the current item, the raw SQL outcomes consumed by
`storeSimilarityItem` and `findSimilarItems` in stateful mode (both
functions catch internally, so these outcomes can never abort the
pipeline), the GitHub listing call, the per-candidate summary/embedding
calls (indexed by the candidate's position in the fetched list) and the
final classification chat call. -/
structure DedupeEnv where
  summaryOutcome : Except String RawSummary
  embedOutcome : Except String (List ℝ)
  storeQueryOutcome : Except String Unit
  similarQueryOutcome : Except String (List SimilarityItem)
  fetchOutcome : Except String (List FetchedItem)
  candSummaryOutcome : ℕ → Except String RawSummary
  candEmbedOutcome : ℕ → Except String (List ℝ)
  classifyOutcome : Except String RawDuplicate

/-- JavaScript `parseInt` as applied to the store's `github_id` strings
(decimal integer text, as written by `itemNumber.toString()`); the NaN
case for malformed text is abstracted to 0. -/
def jsParseInt (s : String) : ℤ := (s.toInt?).getD 0

/-- The stateless candidate loop of `detectDuplicates` (dedupe.ts lines
85-107): skip the current item, summarize and embed each remaining item,
compute its cosine similarity to the current embedding, and keep it when
the similarity reaches the threshold.  Any raised error (a failed
embedding call, or a length mismatch inside
`calculateCosineSimilarity`) aborts the loop, as an exception does in the
source.  `i` indexes the oracle calls by position in the fetched list. -/
noncomputable def statelessLoop (env : DedupeEnv) (currentEmbedding : List ℝ)
    (itemNumber : ℤ) (similarityThreshold : ℝ) :
    ℕ → List FetchedItem → Except String (List Candidate)
  | _, [] => .ok []
  | i, item :: rest =>
    if item.number = itemNumber then
      statelessLoop env currentEmbedding itemNumber similarityThreshold (i + 1) rest
    else
      match generateEmbedding (env.candEmbedOutcome i) with
      | .error e => .error e
      | .ok candidateEmbedding =>
        match calculateCosineSimilarity currentEmbedding candidateEmbedding with
        | .error e => .error e
        | .ok similarity =>
          match statelessLoop env currentEmbedding itemNumber similarityThreshold (i + 1) rest with
          | .error e => .error e
          | .ok restCandidates =>
            if similarity ≥ similarityThreshold then
              .ok ({ number := item.number
                     title := item.title
                     summary := (generateSummary item.title (item.body.getD "") (some [])
                       (env.candSummaryOutcome i)).problem_statement
                     similarity := similarity } :: restCandidates)
            else
              .ok restCandidates

/-- The sort on dedupe.ts line 111:
`candidates.sort((a, b) => b.similarity - a.similarity)`, i.e. by
similarity descending. -/
noncomputable def sortCandidates (candidates : List Candidate) : List Candidate :=
  candidates.mergeSort fun a b => decide (b.similarity ≤ a.similarity)

/-- The body of the `try` block of `detectDuplicates` (dedupe.ts lines
27-130), before the enclosing catch: summarize the current item, embed
the summary text, source candidates either from the store (stateful —
`storeSimilarityItem` and `findSimilarItems` catch internally and never
raise) or from a scan of recent GitHub items (stateless), sort them by
similarity descending, return `none` when no candidate survived, and
otherwise classify the top candidate with one more chat call. -/
noncomputable def detectDuplicatesE (env : DedupeEnv) (itemNumber : ℤ)
    (itemTitle itemBody : String) (itemType : String) (files : List String)
    (maxCandidates : ℤ) (similarityThreshold : ℝ) (databaseUrl : Option String) :
    Except String (Option DuplicateResult) :=
  let currentSummary := generateSummary itemTitle itemBody (some files) env.summaryOutcome
  let _summaryText := itemTitle ++ " " ++ currentSummary.problem_statement
  let _ := itemType
  let _ := maxCandidates
  match generateEmbedding env.embedOutcome with
  | .error e => .error e
  | .ok currentEmbedding =>
    let candidatesE : Except String (List Candidate) :=
      match databaseUrl with
      | some _ =>
        let _ := storeSimilarityItem env.storeQueryOutcome
        let similarItems := findSimilarItems env.similarQueryOutcome
        .ok (((similarItems.filter fun item => item.github_id ≠ toString itemNumber).map
          fun item =>
            { number := jsParseInt item.github_id
              title := item.title
              summary := item.summary
              similarity := item.similarity.getD 0 } : List Candidate))
      | none =>
        match env.fetchOutcome with
        | .error e => .error e
        | .ok items => statelessLoop env currentEmbedding itemNumber similarityThreshold 0 items
    match candidatesE with
    | .error e => .error e
    | .ok candidates =>
      match sortCandidates candidates with
      | [] => .ok none
      | _topCandidate :: _ => .ok (some (classifyDuplicate env.classifyOutcome))

/-- `detectDuplicates` (dedupe.ts lines 15-135): the pipeline above
wrapped in the catch block of lines 131-134, which logs any raised error
and returns `null`. -/
noncomputable def detectDuplicates (env : DedupeEnv) (itemNumber : ℤ)
    (itemTitle itemBody : String) (itemType : String) (files : List String)
    (maxCandidates : ℤ) (similarityThreshold : ℝ) (databaseUrl : Option String) :
    Option DuplicateResult :=
  match detectDuplicatesE env itemNumber itemTitle itemBody itemType files
      maxCandidates similarityThreshold databaseUrl with
  | .ok result => result
  | .error _ => none

/-- Splits a character list into its `/`-separated segments. -/
def splitOnSlash : List Char → List (List Char)
  | [] => [[]]
  | c :: rest =>
    match splitOnSlash rest with
    | [] => [[c]]
    | s :: ss => if c = '/' then [] :: s :: ss else (c :: s) :: ss

/-- The test predicate exactly as the spec words it, for comparison with
the implemented `detectTests`: a path contains `.test.` or `.spec.`, or
has a directory segment named `test`, `tests` or `spec`. -/
def detectTestsSpec (files : List String) : Bool :=
  files.any fun file =>
    containsSub ".test.".data file.data || containsSub ".spec.".data file.data ||
      (splitOnSlash file.data).any fun segment =>
        segment = "test".data || segment = "tests".data || segment = "spec".data

/-- A run environment in which the embedding endpoint is down: the
embedding call (and, for good measure, every chat call) fails. -/
def envEmbedDown : DedupeEnv :=
  { summaryOutcome := .error "chat down"
    embedOutcome := .error "embedding down"
    storeQueryOutcome := .ok ()
    similarQueryOutcome := .ok []
    fetchOutcome := .ok []
    candSummaryOutcome := fun _ => .error "chat down"
    candEmbedOutcome := fun _ => .error "embedding down"
    classifyOutcome := .error "chat down" }

/-- A stateless-mode run environment with a single fetched candidate whose
embedding is orthogonal to the current item's, so its similarity 0 is
strictly below any positive threshold. -/
def envOrthogonal : DedupeEnv :=
  { summaryOutcome := .ok ⟨some "p", some "s", some [], some []⟩
    embedOutcome := .ok [1, 0]
    storeQueryOutcome := .ok ()
    similarQueryOutcome := .ok []
    fetchOutcome := .ok [⟨12, "other", some "body"⟩]
    candSummaryOutcome := fun _ => .ok ⟨some "q", none, none, none⟩
    candEmbedOutcome := fun _ => .ok [0, 1]
    classifyOutcome := .ok ⟨some "duplicate", some 1, some 12, some "same"⟩ }

end Triage

open Triage

/-! ## Theorems -/

/-- C2 (counterexample): at diffSize 0, descriptionLength 0, every boolean
factor false and no review result, `calculateScore` returns 40, not the 30
the claim states — diffSize 0 also earns the +10 small-diff bonus. -/
theorem calculateScore_allZero_ne_thirty :
    calculateScore ⟨false, false, 0, 0, false, false⟩ none = 40 ∧ (40 : ℤ) ≠ 30 := by
  decide

/-- C2 (amended): `calculateScore` with diffSize 0, descriptionLength 0,
every boolean factor false and no LLM review result returns 40
(base 50, +10 for a diff under 300 lines, −20 for missing tests). -/
theorem calculateScore_allZero_eq_forty :
    calculateScore ⟨false, false, 0, 0, false, false⟩ none = 40 := by
  decide

/-- C4 (counterexample): on the file list `["latest/app.ts"]` the
implemented `detectTests` answers true (the unanchored pattern `test/`
matches inside `latest/`), while the claim's predicate — `.test.`,
`.spec.`, or a `test`/`tests`/`spec` directory segment — is false, so the
claimed equivalence fails. -/
theorem detectTests_latest_counterexample :
    detectTests ["latest/app.ts"] = true ∧ detectTestsSpec ["latest/app.ts"] = false := by
  decide

/-- C4 (amended): `detectTests` returns true iff some path contains one of
the six literal substrings `.test.`, `.spec.`, `__tests__/`, `test/`,
`tests/`, `spec/` (unanchored, so e.g. `latest/` also matches), and the
pre-clamp score of `calculateScore` is 20 lower than with tests present
exactly when this predicate is false. -/
theorem detectTests_characterization (files : List String) (ci ta : Bool) (ds dl : ℤ)
    (hr : Bool) (r : Option PRReviewResult) :
    (detectTests files = true ↔ ∃ file ∈ files, ∃ pattern ∈ testPatterns,
        containsSub pattern.data file.data = true) ∧
    calculateScoreRaw ⟨ci, ta, ds, dl, hr, detectTests files⟩ r =
      calculateScoreRaw ⟨ci, ta, ds, dl, hr, true⟩ r -
        (if detectTests files then 0 else 20) := by
  constructor
  · simp [detectTests, List.any_eq_true]
  · cases hdt : detectTests files
    · simp [calculateScoreRaw, hdt]
      ring
    · simp [calculateScoreRaw, hdt]

/-- C5 (confirmed): for a PR touching `src/auth/session.ts` and
`tests/session.test.ts` with 50 additions + 10 deletions and a
400-character description and no LLM review, the detectors fire as the
spec says and `calculateScore` yields 50 + 15 + 10 + 10 − 15 = 70. -/
theorem calculateScore_endToEnd_seventy :
    detectTests ["src/auth/session.ts", "tests/session.test.ts"] = true ∧
    detectHighRiskModules ["src/auth/session.ts", "tests/session.test.ts"] = true ∧
    calculateScore
      { ciPassing := false
        testsAdded := detectTests ["src/auth/session.ts", "tests/session.test.ts"]
        diffSize := 50 + 10
        descriptionLength := 400
        highRiskModules := detectHighRiskModules ["src/auth/session.ts", "tests/session.test.ts"]
        hasTests := detectTests ["src/auth/session.ts", "tests/session.test.ts"] }
      none = 70 := by
  decide

/-- C8 (counterexample): when the summary call fails and a file list was
supplied, the fallback summary's `affected_files` is the supplied list,
not empty as the claim states. -/
theorem generateSummary_failure_keeps_files :
    (generateSummary "T" "B" (some ["a.ts"]) (.error "boom")).affected_files = ["a.ts"] ∧
    (["a.ts"] : List String) ≠ [] := by
  decide

/-- C8 (amended): `generateSummary` never propagates a failure — its
result type carries no error — and on any failure of the LLM call or of
JSON parsing it returns the default summary whose problem statement is
the raw title, scope `Unknown`, key entities empty and affected files
equal to the supplied file list (empty when absent). -/
theorem generateSummary_failure_default (title body : String)
    (files : Option (List String)) (e : String) :
    generateSummary title body files (.error e) =
      { problem_statement := title
        scope := "Unknown"
        key_entities := []
        affected_files := files.getD [] } := rfl

/-- C9 (confirmed): `classifyDuplicate` is total — it always produces a
`DuplicateResult` — and on any LLM-call or JSON-parse failure it returns
classification `distinct` with confidence 0 and no canonical item. -/
theorem classifyDuplicate_failure_default (e : String) :
    classifyDuplicate (.error e) =
      { classification := "distinct"
        confidence := 0
        canonical_item := none
        reasoning := "Classification failed" } := rfl

/-- Clamping to [0,100] is monotone. -/
theorem clamp_mono {s t : ℤ} (h : s ≤ t) :
    max 0 (min 100 s) ≤ max 0 (min 100 t) :=
  max_le_max le_rfl (min_le_min le_rfl h)

/-- The pre-clamp score never decreases when `testsAdded` turns on. -/
theorem calculateScoreRaw_testsAdded_mono (f : ScoringFactors)
    (r : Option PRReviewResult) :
    calculateScoreRaw { f with testsAdded := false } r ≤
      calculateScoreRaw { f with testsAdded := true } r := by
  simp only [calculateScoreRaw]
  split_ifs <;> omega

/-- The pre-clamp score is antitone in `diffSize`. -/
theorem calculateScoreRaw_diffSize_antitone (f : ScoringFactors)
    (r : Option PRReviewResult) {d₁ d₂ : ℤ} (h : d₁ ≤ d₂) :
    calculateScoreRaw { f with diffSize := d₂ } r ≤
      calculateScoreRaw { f with diffSize := d₁ } r := by
  simp only [calculateScoreRaw]
  split_ifs <;> omega

/-- C3 (confirmed): `calculateScore` is monotone in each independent
factor and always clamped — turning `testsAdded` on never decreases the
result, a larger `diffSize` (in particular one past 1000) never increases
it, and for every input, review result included, the result lies in
[0, 100]. -/
theorem calculateScore_monotone_clamped (f : ScoringFactors)
    (r : Option PRReviewResult) (d₁ d₂ : ℤ) (h : d₁ ≤ d₂) :
    calculateScore { f with testsAdded := false } r ≤
      calculateScore { f with testsAdded := true } r ∧
    calculateScore { f with diffSize := d₂ } r ≤
      calculateScore { f with diffSize := d₁ } r ∧
    0 ≤ calculateScore f r ∧ calculateScore f r ≤ 100 := by
  refine ⟨clamp_mono (calculateScoreRaw_testsAdded_mono f r),
    clamp_mono (calculateScoreRaw_diffSize_antitone f r h), le_max_left 0 _, ?_⟩
  exact max_le (by norm_num) (min_le_left 100 _)

/-- C3 witness: the monotonicity and clamping facts at a concrete factor
record, a concrete review result with readiness score 80, and the
concrete diff sizes 1001 ≤ 5000. -/
theorem calculateScore_monotone_clamped_witness :
    calculateScore ⟨true, false, 500, 400, true, false⟩
        (some ⟨"s", "low", [], "aligned", 80⟩) ≤
      calculateScore ⟨true, true, 500, 400, true, false⟩
        (some ⟨"s", "low", [], "aligned", 80⟩) ∧
    calculateScore ⟨true, false, 5000, 400, true, false⟩
        (some ⟨"s", "low", [], "aligned", 80⟩) ≤
      calculateScore ⟨true, false, 1001, 400, true, false⟩
        (some ⟨"s", "low", [], "aligned", 80⟩) ∧
    0 ≤ calculateScore ⟨true, false, 500, 400, true, false⟩
        (some ⟨"s", "low", [], "aligned", 80⟩) ∧
    calculateScore ⟨true, false, 500, 400, true, false⟩
        (some ⟨"s", "low", [], "aligned", 80⟩) ≤ 100 :=
  calculateScore_monotone_clamped ⟨true, false, 500, 400, true, false⟩
    (some ⟨"s", "low", [], "aligned", 80⟩) 1001 5000 (by norm_num)

/-- A sum of squares of real entries is nonnegative. -/
theorem sumSq_nonneg (l : List ℝ) : 0 ≤ (l.map fun x => x * x).sum := by
  induction l with
  | nil => simp
  | cons x t ih =>
    simp only [List.map_cons, List.sum_cons]
    nlinarith [mul_self_nonneg x]

/-- A sum of squares with a nonzero entry is positive. -/
theorem sumSq_pos_of_mem {l : List ℝ} {x : ℝ} (hx : x ∈ l) (hne : x ≠ 0) :
    0 < (l.map fun y => y * y).sum := by
  induction l with
  | nil => cases hx
  | cons y t ih =>
    simp only [List.map_cons, List.sum_cons]
    rcases List.mem_cons.mp hx with rfl | hmem
    · nlinarith [sumSq_nonneg t, mul_self_pos.mpr hne]
    · nlinarith [ih hmem, mul_self_nonneg y]

/-- Zipping a list with itself by multiplication squares each entry. -/
theorem zipWith_mul_self (l : List ℝ) :
    List.zipWith (fun x y => x * y) l l = l.map fun x => x * x := by
  induction l with
  | nil => rfl
  | cons x t ih => simp [ih]

/-- Pointwise multiplication of two lists is commutative. -/
theorem zipWith_mul_comm (a : List ℝ) : ∀ b : List ℝ,
    List.zipWith (fun x y => x * y) a b = List.zipWith (fun x y => x * y) b a := by
  induction a with
  | nil => intro b; cases b <;> rfl
  | cons x t ih =>
    intro b
    cases b with
    | nil => rfl
    | cons y s => simp [ih s, mul_comm]

/-- Inductive step of the Cauchy-Schwarz inequality: one entry is added
to each list. -/
theorem cauchy_schwarz_step (x y d A B : ℝ) (hA : 0 ≤ A) (hB : 0 ≤ B)
    (hd : d ^ 2 ≤ A * B) :
    (x * y + d) ^ 2 ≤ (x * x + A) * (y * y + B) := by
  rcases eq_or_lt_of_le hA with heq | hpos
  · have hd0 : d = 0 := by nlinarith [sq_nonneg d]
    subst hd0
    nlinarith [mul_nonneg (mul_self_nonneg x) hB, mul_nonneg (mul_self_nonneg y) hA]
  · nlinarith [sq_nonneg (x * d - y * A),
      mul_nonneg (add_nonneg (mul_self_nonneg x) hA) (by nlinarith : (0:ℝ) ≤ A * B - d ^ 2)]

/-- The Cauchy-Schwarz inequality for the list dot product. -/
theorem list_cauchy_schwarz (a : List ℝ) : ∀ b : List ℝ,
    ((List.zipWith (fun x y => x * y) a b).sum) ^ 2 ≤
      (a.map fun x => x * x).sum * (b.map fun x => x * x).sum := by
  induction a with
  | nil =>
    intro b
    simp
  | cons x ta ih =>
    intro b
    cases b with
    | nil => simp
    | cons y tb =>
      simp only [List.zipWith_cons_cons, List.map_cons, List.sum_cons]
      exact cauchy_schwarz_step x y _ _ _ (sumSq_nonneg ta) (sumSq_nonneg tb) (ih tb)

/-- C6 (confirmed): `calculateCosineSimilarity` fails exactly when the two
vectors differ in length; for equal-length vectors it returns 0 whenever
either vector has zero magnitude; every nonzero vector has cosine
similarity 1 with itself; and every returned value lies in [-1, 1]. -/
theorem cosine_similarity_props :
    (∀ a b : List ℝ, (∃ e, calculateCosineSimilarity a b = .error e) ↔
        a.length ≠ b.length) ∧
    (∀ a b : List ℝ, a.length = b.length →
        Real.sqrt ((a.map fun x => x * x).sum) = 0 ∨
          Real.sqrt ((b.map fun x => x * x).sum) = 0 →
        calculateCosineSimilarity a b = .ok 0) ∧
    (∀ v : List ℝ, (∃ x ∈ v, x ≠ 0) → calculateCosineSimilarity v v = .ok 1) ∧
    (∀ (a b : List ℝ) (r : ℝ), calculateCosineSimilarity a b = .ok r →
        -1 ≤ r ∧ r ≤ 1) := by
  refine ⟨fun a b => ⟨?_, ?_⟩, fun a b hlen hz => ?_, fun v hex => ?_, fun a b r hab => ?_⟩
  · rintro ⟨e, he⟩
    simp only [calculateCosineSimilarity] at he
    by_contra hcon
    rw [if_neg (by simp [hcon])] at he
    split_ifs at he
  · intro hne
    refine ⟨"Vectors must have the same length", ?_⟩
    simp only [calculateCosineSimilarity]
    rw [if_pos hne]
  · simp only [calculateCosineSimilarity]
    rw [if_neg (by simp [hlen]), if_pos hz]
  · obtain ⟨x, hxv, hxne⟩ := hex
    have hpos : 0 < (v.map fun y => y * y).sum := sumSq_pos_of_mem hxv hxne
    have hsqrt : Real.sqrt ((v.map fun y => y * y).sum) ≠ 0 :=
      ne_of_gt (Real.sqrt_pos.mpr hpos)
    simp only [calculateCosineSimilarity]
    rw [if_neg (by simp), if_neg (by simp [hsqrt]), zipWith_mul_self,
      Real.mul_self_sqrt (le_of_lt hpos), div_self (ne_of_gt hpos)]
  · simp only [calculateCosineSimilarity] at hab
    split_ifs at hab with h1 h2
    · injection hab with h
      subst h
      norm_num
    · injection hab with h
      subst h
      push_neg at h2
      have hA0 := sumSq_nonneg a
      have hB0 := sumSq_nonneg b
      have hApos : 0 < Real.sqrt ((a.map fun x => x * x).sum) :=
        lt_of_le_of_ne (Real.sqrt_nonneg _) (Ne.symm h2.1)
      have hBpos : 0 < Real.sqrt ((b.map fun x => x * x).sum) :=
        lt_of_le_of_ne (Real.sqrt_nonneg _) (Ne.symm h2.2)
      have hprod : ((List.zipWith (fun x y => x * y) a b).sum) ^ 2 ≤
          (Real.sqrt ((a.map fun x => x * x).sum) *
            Real.sqrt ((b.map fun x => x * x).sum)) ^ 2 := by
        rw [mul_pow, Real.sq_sqrt hA0, Real.sq_sqrt hB0]
        exact list_cauchy_schwarz a b
      have habs : |(List.zipWith (fun x y => x * y) a b).sum| ≤
          Real.sqrt ((a.map fun x => x * x).sum) *
            Real.sqrt ((b.map fun x => x * x).sum) := by
        calc |(List.zipWith (fun x y => x * y) a b).sum|
            = Real.sqrt ((List.zipWith (fun x y => x * y) a b).sum ^ 2) :=
              (Real.sqrt_sq_eq_abs _).symm
          _ ≤ Real.sqrt ((Real.sqrt ((a.map fun x => x * x).sum) *
                Real.sqrt ((b.map fun x => x * x).sum)) ^ 2) :=
              Real.sqrt_le_sqrt hprod
          _ = _ := Real.sqrt_sq (by positivity)
      have hdiv : |(List.zipWith (fun x y => x * y) a b).sum /
          (Real.sqrt ((a.map fun x => x * x).sum) *
            Real.sqrt ((b.map fun x => x * x).sum))| ≤ 1 := by
        rw [abs_div, abs_of_pos (mul_pos hApos hBpos)]
        exact (div_le_one (mul_pos hApos hBpos)).mpr habs
      exact abs_le.mp hdiv

/-- C6 witness: concrete instances of the four properties — a length
mismatch fails, an all-zero vector yields 0, a nonzero vector has
self-similarity 1, and that returned value lies in [-1, 1]. -/
theorem cosine_similarity_props_witness :
    (∃ e, calculateCosineSimilarity [(1:ℝ)] [] = .error e) ∧
    calculateCosineSimilarity [(0:ℝ), 0] [3, 4] = .ok 0 ∧
    calculateCosineSimilarity [(3:ℝ), 4] [3, 4] = .ok 1 ∧
    (-1 ≤ (1:ℝ) ∧ (1:ℝ) ≤ 1) :=
  ⟨(cosine_similarity_props.1 [(1:ℝ)] []).mpr (by simp),
   cosine_similarity_props.2.1 [(0:ℝ), 0] [3, 4] (by simp)
     (Or.inl (by norm_num [Real.sqrt_eq_zero'])),
   cosine_similarity_props.2.2.1 [(3:ℝ), 4] ⟨3, by simp, by norm_num⟩,
   cosine_similarity_props.2.2.2 [(3:ℝ), 4] [3, 4] 1
     (cosine_similarity_props.2.2.1 [(3:ℝ), 4] ⟨3, by simp, by norm_num⟩)⟩

/-- C10 (confirmed): `calculateCosineSimilarity` is symmetric on
equal-length vectors. -/
theorem cosine_similarity_symm (a b : List ℝ) (h : a.length = b.length) :
    calculateCosineSimilarity a b = calculateCosineSimilarity b a := by
  by_cases hA : Real.sqrt ((a.map fun x => x * x).sum) = 0 <;>
    by_cases hB : Real.sqrt ((b.map fun x => x * x).sum) = 0 <;>
      simp [calculateCosineSimilarity, h, hA, hB, zipWith_mul_comm a b, mul_comm]

/-- C10 witness: symmetry at the concrete pair [1, 2] and [3, 4]. -/
theorem cosine_similarity_symm_witness :
    ([(1:ℝ), 2].length = [(3:ℝ), 4].length) ∧
    calculateCosineSimilarity [(1:ℝ), 2] [3, 4] =
      calculateCosineSimilarity [(3:ℝ), 4] [1, 2] :=
  ⟨rfl, cosine_similarity_symm [(1:ℝ), 2] [(3:ℝ), 4] rfl⟩

/-- C1 (counterexample): in a run environment whose embedding call fails,
the inner pipeline of `detectDuplicates` aborts with the embedding error,
yet `detectDuplicates` itself returns the null result to its caller — the
catch block on dedupe.ts lines 131-134 swallows the error instead of
propagating it. -/
theorem detectDuplicates_embedFailure_counterexample :
    detectDuplicatesE envEmbedDown 1 "t" "b" "issue" [] 20 (17 / 20 : ℝ) none =
      .error "embedding down" ∧
    detectDuplicates envEmbedDown 1 "t" "b" "issue" [] 20 (17 / 20 : ℝ) none = none :=
  ⟨rfl, rfl⟩

/-- C1 (amended): when the embedding call fails, `generateEmbedding`
re-raises the error and the inner pipeline of `detectDuplicates` aborts
with it, but `detectDuplicates` catches the error and returns the null
result to its caller instead of propagating it. -/
theorem detectDuplicates_embedFailure (env : DedupeEnv) (n : ℤ)
    (t b ty : String) (files : List String) (mc : ℤ) (th : ℝ)
    (db : Option String) (e : String) (h : env.embedOutcome = .error e) :
    generateEmbedding env.embedOutcome = .error e ∧
    detectDuplicatesE env n t b ty files mc th db = .error e ∧
    detectDuplicates env n t b ty files mc th db = none := by
  have hg : generateEmbedding env.embedOutcome = .error e := by
    rw [h]
    rfl
  refine ⟨hg, ?_, ?_⟩
  · simp only [detectDuplicatesE, hg]
  · simp only [detectDuplicates, detectDuplicatesE, hg]

/-- C1 witness: the amended claim at the concrete environment
`envEmbedDown`. -/
theorem detectDuplicates_embedFailure_witness :
    generateEmbedding envEmbedDown.embedOutcome = .error "embedding down" ∧
    detectDuplicatesE envEmbedDown 2 "u" "c" "pr" ["f.ts"] 20 (17 / 20 : ℝ)
      (some "postgres://db") = .error "embedding down" ∧
    detectDuplicates envEmbedDown 2 "u" "c" "pr" ["f.ts"] 20 (17 / 20 : ℝ)
      (some "postgres://db") = none :=
  detectDuplicates_embedFailure envEmbedDown 2 "u" "c" "pr" ["f.ts"] 20
    (17 / 20) (some "postgres://db") "embedding down" rfl

/-- When every successfully computed candidate similarity is strictly
below the threshold, the stateless candidate loop either completes with an
empty survivor list or aborts with some raised error (a failed candidate
embedding call or a vector-length mismatch); it never yields a survivor. -/
theorem statelessLoop_below_threshold (env : DedupeEnv) (curEmb : List ℝ)
    (n : ℤ) (th : ℝ)
    (hbelow : ∀ (j : ℕ) (emb : List ℝ) (s : ℝ), env.candEmbedOutcome j = .ok emb →
      calculateCosineSimilarity curEmb emb = .ok s → s < th) :
    ∀ (i : ℕ) (items : List FetchedItem),
      statelessLoop env curEmb n th i items = .ok [] ∨
      ∃ e, statelessLoop env curEmb n th i items = .error e := by
  intro i items
  induction items generalizing i with
  | nil => exact Or.inl rfl
  | cons item rest ih =>
    simp only [statelessLoop]
    by_cases hskip : item.number = n
    · rw [if_pos hskip]
      exact ih (i + 1)
    · rw [if_neg hskip]
      cases hemb : env.candEmbedOutcome i with
      | error e =>
        right
        exact ⟨e, by simp [generateEmbedding]⟩
      | ok emb =>
        simp only [generateEmbedding]
        cases hcos : calculateCosineSimilarity curEmb emb with
        | error e => exact Or.inr ⟨e, rfl⟩
        | ok s =>
          rcases ih (i + 1) with hok | ⟨e, he⟩
          · rw [hok]
            left
            simp [not_le.mpr (hbelow i emb s hemb hcos)]
          · rw [he]
            exact Or.inr ⟨e, rfl⟩

/-- Sorting the empty candidate list yields the empty list. -/
theorem sortCandidates_nil : sortCandidates [] = [] := by
  simp [sortCandidates]

/-- C7 (confirmed): in stateless mode, when every candidate similarity to
the current item is strictly below the caller-supplied threshold, no
candidate survives the filter and `detectDuplicates` returns the null
result; the LLM classification step is never invoked — the outcome of the
classification call (`co`, universally quantified) cannot influence the
result. -/
theorem detectDuplicates_below_threshold (env : DedupeEnv)
    (co : Except String RawDuplicate) (n : ℤ) (t b ty : String)
    (files : List String) (mc : ℤ) (th : ℝ) (curEmb : List ℝ)
    (items : List FetchedItem)
    (hembed : env.embedOutcome = .ok curEmb)
    (hfetch : env.fetchOutcome = .ok items)
    (hbelow : ∀ (j : ℕ) (emb : List ℝ) (s : ℝ), env.candEmbedOutcome j = .ok emb →
      calculateCosineSimilarity curEmb emb = .ok s → s < th) :
    detectDuplicates { env with classifyOutcome := co } n t b ty files mc th none = none := by
  have hbelow' : ∀ (j : ℕ) (emb : List ℝ) (s : ℝ),
      ({ env with classifyOutcome := co } : DedupeEnv).candEmbedOutcome j = .ok emb →
      calculateCosineSimilarity curEmb emb = .ok s → s < th := hbelow
  rcases statelessLoop_below_threshold { env with classifyOutcome := co } curEmb n th
      hbelow' 0 items with hok | ⟨e, he⟩
  · simp only [hembed, hfetch] at hok
    simp [detectDuplicates, detectDuplicatesE, generateEmbedding, hembed, hfetch, hok,
      sortCandidates_nil]
  · simp only [hembed, hfetch] at he
    simp [detectDuplicates, detectDuplicatesE, generateEmbedding, hembed, hfetch, he]

/-- C7 witness: in the concrete stateless environment `envOrthogonal`
(current embedding [1, 0], single candidate embedding [0, 1], similarity
0 < 0.85), detection returns the null result even though the
classification oracle would have answered `duplicate`. -/
theorem detectDuplicates_below_threshold_witness :
    envOrthogonal.embedOutcome = .ok [(1 : ℝ), 0] ∧
    envOrthogonal.fetchOutcome = .ok [⟨12, "other", some "body"⟩] ∧
    detectDuplicates
      { envOrthogonal with
        classifyOutcome := .ok ⟨some "duplicate", some 1, some 12, some "same"⟩ }
      1 "t" "b" "issue" [] 20 (17 / 20 : ℝ) none = none := by
  refine ⟨rfl, rfl, detectDuplicates_below_threshold envOrthogonal
    (.ok ⟨some "duplicate", some 1, some 12, some "same"⟩) 1 "t" "b" "issue" [] 20
    (17 / 20) [(1 : ℝ), 0] [⟨12, "other", some "body"⟩] rfl rfl ?_⟩
  intro j emb s h1 h2
  have hemb : emb = [(0 : ℝ), 1] := by
    injection h1 with h
    exact h.symm
  subst hemb
  have hval : calculateCosineSimilarity [(1 : ℝ), 0] [0, 1] = .ok 0 := by
    simp only [calculateCosineSimilarity]
    rw [if_neg (by simp)]
    norm_num [Real.sqrt_one]
  rw [hval] at h2
  injection h2 with h
  subst h
  norm_num
